import Mathlib

/-!
Shallow embedding of the client authentication / session subsystem of the
RestaurantApp repository (React/Redux front-ends), and proofs about it.

The JavaScript source is modelled as follows:
* JS truthiness on strings-or-null (`localStorage.getItem`, header values,
  cookie reads) is `truthy : Option String → Bool` (null and "" are falsy).
* Module-level mutable state (the CSRF cache in `services/api.js`) and
  `localStorage` are explicit state records threaded through functions.
* The single-threaded event loop: an `async` function runs atomically from
  its invocation up to its first `await`.  Concurrent invocations are
  modelled as a sequence of such atomic synchronous prefixes, all executed
  before any network completion is delivered.  Completions are delivered
  afterwards as separate atomic steps.
* Fallible network calls are parametrised by a server oracle (a function
  from call index to scripted response) and produce `Except`-style results.
-/

/-- JS truthiness for a string-or-null value: `null` and `""` are falsy. -/
def truthy : Option String → Bool
  | none => false
  | some s => s ≠ ""

/-! ## Permissions (`frontend-owner/src/utils/permissions.js`) -/

/-- `user.staff_profile` as used by `hasPermission`:
`staff.restaurant.restaurant_id`, the four capability booleans and `staff.role`. -/
structure StaffProfile where
  restaurant_id : String
  can_view_reports : Bool
  can_manage_menu : Bool
  can_manage_orders : Bool
  can_manage_staff : Bool
  role : String
  deriving Repr, DecidableEq

/-- The user record fields consumed by the auth slice, the route guard and
`hasPermission`.  `email_verified` is `Option Bool`: `none` models the JS
`undefined` (server omitted the field). -/
structure UserData where
  email : String := ""
  email_verified : Option Bool := none
  user_type : String := ""
  staff_profile : Option StaffProfile := none
  deriving Repr, DecidableEq

/-- `hasPermission(user, permission, restaurantId)` from
`frontend-owner/src/utils/permissions.js` (lines 10–52), transcribed
branch for branch.  `restaurantId = none`/`some ""` model the JS falsy
default `null`/empty string. -/
def hasPermission (user : Option UserData) (permission : String)
    (restaurantId : Option String) : Bool :=
  match user with
  | none => false
  | some u =>
    if u.user_type = "owner" then
      true
    else if u.user_type = "staff" ∧ u.staff_profile.isSome then
      match u.staff_profile with
      | none => false
      | some staff =>
        if truthy restaurantId ∧ some staff.restaurant_id ≠ restaurantId then
          false
        else
          match permission with
          | "view_reports" => staff.can_view_reports
          | "manage_menu" => staff.can_manage_menu
          | "manage_orders" => staff.can_manage_orders
          | "manage_staff" => staff.can_manage_staff
          | "access_kitchen" => staff.role = "chef" ∨ staff.role = "manager"
          | "process_payments" => staff.role = "cashier" ∨ staff.role = "manager"
          | _ => false
    else
      false

/-! ## CSRF coordinator of the owner client
(`src/unnamed/part_008`, `getCSRFToken`, lines 22–73)

`csrfToken`/`localStorage('csrfToken')` are the in-memory and persisted
caches; `initializationPromise` is modelled by the `inflight` flag;
`fetchCount` counts upstream fetches of `/auth/csrf/` that were started. -/

structure CSRFState where
  /-- module-level `csrfToken` variable (in-memory cache). -/
  memTok : Option String
  /-- persisted `localStorage.getItem('csrfToken')`. -/
  storeTok : Option String
  /-- `initializationPromise !== null`. -/
  inflight : Bool
  /-- number of upstream CSRF fetches started so far. -/
  fetchCount : Nat
  /-- module-level `initializationCount`. -/
  initCount : Nat
  deriving Repr, DecidableEq

/-- What a single call of `getCSRFToken` does in its synchronous prefix
(before its first suspension point). -/
inductive CSRFCallResult
  /-- returned the cached token without any network activity. -/
  | cached (tok : String)
  /-- found `initializationPromise` non-null and returned it: the caller
  awaits the already in-flight operation. -/
  | joined
  /-- started a new acquisition (owns the new in-flight operation). -/
  | started
  deriving Repr, DecidableEq

/-- Synchronous prefix of `getCSRFToken(forceRefresh)` (part_008 lines
22–35): the cache check, the in-flight check, and — in the starting
branch — the counter increment, the promise-slot assignment and the
initiation of the upstream fetch, all of which happen before the first
`await`. -/
def getCSRFTokenStart (force : Bool) (s : CSRFState) : CSRFCallResult × CSRFState :=
  if ¬force ∧ truthy s.memTok then
    (.cached (s.memTok.getD ""), s)
  else if s.inflight then
    (.joined, s)
  else
    (.started,
      { s with inflight := true
               fetchCount := s.fetchCount + 1
               initCount := s.initCount + 1 })

/-- Outcome of the upstream CSRF fetch.  `failure none` is a network error
with no HTTP response; `failure (some n)` is an HTTP error with status `n`.
A 200 response whose body lacks a truthy `csrfToken` is modelled as
`success ""` (the code then throws an Error carrying no response status). -/
inductive FetchOutcome
  | success (tok : String)
  | failure (status : Option Nat)
  deriving Repr, DecidableEq

/-- What every waiter on the shared in-flight promise observes. -/
inductive CSRFSettled
  | resolved (tok : String)
  | rejected (status : Option Nat)
  deriving Repr, DecidableEq

/-- Delivery of the fetch outcome to the single in-flight operation
(part_008 lines 45–69): on a truthy token, cache it in memory and storage;
on a missing token the code throws (no response status attached, nothing
cleared); in the catch branch the caches are cleared only when the error
carries HTTP status 403 or 401; the `finally` always resets
`initializationPromise`.  The returned `CSRFSettled` is the settlement of
the one shared promise, hence what every joined waiter observes. -/
def getCSRFTokenComplete (o : FetchOutcome) (s : CSRFState) : CSRFSettled × CSRFState :=
  match o with
  | .success tok =>
    if tok ≠ "" then
      (.resolved tok,
        { s with memTok := some tok, storeTok := some tok, inflight := false })
    else
      (.rejected none, { s with inflight := false })
  | .failure status =>
    if status = some 403 ∨ status = some 401 then
      (.rejected status,
        { s with memTok := none, storeTok := none, inflight := false })
    else
      (.rejected status, { s with inflight := false })

/-- `n` concurrent callers of `getCSRFToken force` whose synchronous
prefixes all run before any completion is delivered (the event-loop
interleaving of the CSRF-stampede scenario).  Returns the call results in
caller order. -/
def runConcurrentCSRF (force : Bool) : Nat → CSRFState → List CSRFCallResult × CSRFState
  | 0, s => ([], s)
  | n + 1, s =>
    let (r, s') := getCSRFTokenStart force s
    let (rs, s'') := runConcurrentCSRF force n s'
    (r :: rs, s'')

/-! ## CSRF acquisition of the customer client
(`frontend-customer/src/services/api.js`, `ensureCSRFToken`, lines 13–29)

`getCSRFToken()` there reads the `csrftoken` cookie; when the cookie is
absent, `ensureCSRFToken` starts its own `axios.get` — there is no shared
in-flight promise.  The synchronous prefix of one call is the cookie read
and, when it is falsy, the initiation of a fetch. -/

structure CustCSRFState where
  /-- the `csrftoken` cookie (`none` = absent). -/
  cookie : Option String
  /-- number of CSRF fetches started. -/
  fetchCount : Nat
  deriving Repr, DecidableEq

inductive CustCallResult
  | fromCookie (tok : String)
  | startedFetch
  deriving Repr, DecidableEq

/-- Synchronous prefix of one `ensureCSRFToken()` call. -/
def ensureCSRFTokenStart (s : CustCSRFState) : CustCallResult × CustCSRFState :=
  if truthy s.cookie then
    (.fromCookie (s.cookie.getD ""), s)
  else
    (.startedFetch, { s with fetchCount := s.fetchCount + 1 })

/-- `n` concurrent `ensureCSRFToken()` callers, all of whose synchronous
prefixes run before any fetch completes (nothing in this code writes the
cookie, so every prefix sees the same cookie state). -/
def runConcurrentEnsure : Nat → CustCSRFState → List CustCallResult × CustCSRFState
  | 0, s => ([], s)
  | n + 1, s =>
    let (r, s') := ensureCSRFTokenStart s
    let (rs, s'') := runConcurrentEnsure n s'
    (r :: rs, s'')

/-! ## Owner auth slice (`frontend-owner/src/store/slices/authSlice.js`)

`Storage` is the owner front-end's `localStorage` restricted to the five
keys the auth subsystem uses.  `AuthState` mirrors `initialState`
field for field. -/

structure Storage where
  token : Option String := none
  refreshToken : Option String := none
  csrfToken : Option String := none
  pendingVerificationEmail : Option String := none
  pendingUserType : Option String := none
  deriving Repr, DecidableEq

/-- An error payload (`error.response?.data || …` objects handed to
`rejectWithValue` and stored into the error fields). -/
structure ErrPayload where
  errMsg : Option String := none
  requiresVerification : Bool := false
  email : Option String := none
  deriving Repr, DecidableEq

structure Tokens where
  access : String
  refresh : String
  deriving Repr, DecidableEq

/-- Redux auth state, mirroring `initialState` (authSlice lines 246–284). -/
structure AuthState where
  user : Option UserData := none
  owner : Option UserData := none
  restaurants : List String := []
  staff : List String := []
  token : Option String := none
  refreshToken : Option String := none
  isAuthenticated : Bool := false
  isOwner : Bool := false
  requires2FA : Bool := false
  tempLoginData : Option String := none
  loading : Bool := false
  loginLoading : Bool := false
  registerLoading : Bool := false
  staffLoading : Bool := false
  verificationLoading : Bool := false
  csrfInitialized : Bool := false
  csrfLoading : Bool := false
  csrfError : Option ErrPayload := none
  error : Option ErrPayload := none
  loginError : Option ErrPayload := none
  registerError : Option ErrPayload := none
  staffError : Option ErrPayload := none
  verificationError : Option ErrPayload := none
  successMessage : Option String := none
  deriving Repr, DecidableEq

/-- The state created at application start: `token`/`refreshToken` read
from storage and `isAuthenticated: !!localStorage.getItem('token')`
(authSlice lines 246–284). -/
def initialAuthState (st : Storage) : AuthState :=
  { token := st.token
    refreshToken := st.refreshToken
    isAuthenticated := truthy st.token }

/-- `user?.user_type === t` (JS optional chaining). -/
def userTypeIs (u : Option UserData) (t : String) : Bool :=
  match u with
  | some ud => ud.user_type = t
  | none => false

/-- The `clearAuth` reducer (authSlice lines 308–332): resets the listed
auth fields and removes the five persisted keys.  The loading flags and
the CSRF status fields (`csrfInitialized`, `csrfLoading`, `csrfError`)
are not touched by the source and are therefore not reset here. -/
def clearAuth (s : AuthState) (st : Storage) : AuthState × Storage :=
  ({ s with user := none, owner := none, restaurants := [], staff := [],
            token := none, refreshToken := none, isAuthenticated := false,
            isOwner := false, requires2FA := false, tempLoginData := none,
            error := none, loginError := none, registerError := none,
            staffError := none, verificationError := none,
            successMessage := none },
   { st with token := none, refreshToken := none, csrfToken := none,
             pendingVerificationEmail := none, pendingUserType := none })

/-- `logout` thunk (authSlice lines 231–243) composed with
`authService.logout` (which, on a successful server POST, removes
`token`/`refreshToken`/`csrfToken` before the thunk dispatches
`clearAuth`; on a failed POST the thunk's catch dispatches `clearAuth`
and resolves via `rejectWithValue` — dispatching never throws either
way).  There are no `logout.*` extraReducers, so `clearAuth` is the only
state change. -/
def logoutRun (serverOk : Bool) (s : AuthState) (st : Storage) : AuthState × Storage :=
  if serverOk then
    clearAuth s { st with token := none, refreshToken := none, csrfToken := none }
  else
    clearAuth s st

/-- `initializeCSRF.pending` reducer (authSlice lines 371–374). -/
def initializeCSRFPending (s : AuthState) : AuthState :=
  { s with csrfLoading := true, csrfError := none }

/-- `initializeCSRF.fulfilled` reducer (authSlice lines 375–378). -/
def initializeCSRFFulfilled (s : AuthState) : AuthState :=
  { s with csrfLoading := false, csrfInitialized := true }

/-- `initializeCSRF.rejected` reducer (authSlice lines 379–383). -/
def initializeCSRFRejected (e : ErrPayload) (s : AuthState) : AuthState :=
  { s with csrfLoading := false, csrfError := some e, csrfInitialized := true }

/-- The `initializeCSRF` payload creator (authSlice lines 7–30): its
`try` wraps everything and its `catch` returns a plain
`{success:false,…}` value instead of `rejectWithValue`, so the thunk is
fulfilled whether or not acquisition succeeded, and the `rejected`
reducer (the only writer of `csrfError`) is not reached on acquisition
failure. -/
def initializeCSRFRun (acquisitionOk : Bool) (s : AuthState) : AuthState :=
  let s := initializeCSRFPending s
  if s.csrfInitialized then
    initializeCSRFFulfilled s
  else
    match acquisitionOk with
    | true => initializeCSRFFulfilled s
    | false => initializeCSRFFulfilled s

/-- `ownerRegister` payload creator (authSlice lines 69–81): on server
success it persists `pendingVerificationEmail := ownerData.email` and
`pendingUserType := 'owner'`; on failure the storage is untouched and
the thunk rejects with the server's error payload. -/
def ownerRegisterRun (serverResult : Except ErrPayload String) (email : String)
    (st : Storage) : Except ErrPayload String × Storage :=
  match serverResult with
  | .ok msg =>
    (.ok msg,
      { st with pendingVerificationEmail := some email,
                pendingUserType := some "owner" })
  | .error e => (.error e, st)

/-- `ownerRegister.fulfilled` reducer (authSlice lines 438–441);
`action.payload.message || '…'` is the default-message fallback. -/
def ownerRegisterFulfilled (msg : Option String) (s : AuthState) : AuthState :=
  { s with registerLoading := false,
           successMessage :=
             some ((msg.filter (· ≠ "")).getD
               "Registration successful! Please check your email for verification.") }

/-- `ownerRegister.rejected` reducer (authSlice lines 442–445). -/
def ownerRegisterRejected (e : ErrPayload) (s : AuthState) : AuthState :=
  { s with registerLoading := false, registerError := some e }

/-- Dispatch of `ownerRegister`: pending reducer, payload creator, then
the matching settled reducer. -/
def ownerRegisterDispatch (serverResult : Except ErrPayload String) (email : String)
    (s : AuthState) (st : Storage) : AuthState × Storage :=
  let s := { s with registerLoading := true, registerError := none }
  match ownerRegisterRun serverResult email st with
  | (.ok msg, st') => (ownerRegisterFulfilled (some msg) s, st')
  | (.error e, st') => (ownerRegisterRejected e s, st')

/-- Server payload of `verify-code` (`{ user }`). -/
structure VerifyPayload where
  user : Option UserData := none
  deriving Repr, DecidableEq

/-- `verifyEmailCode` payload creator (authSlice lines 117–129): on
server success it removes both pending markers; on failure storage is
untouched. -/
def verifyEmailCodeRun (serverResult : Except ErrPayload VerifyPayload)
    (st : Storage) : Except ErrPayload VerifyPayload × Storage :=
  match serverResult with
  | .ok p =>
    (.ok p, { st with pendingVerificationEmail := none, pendingUserType := none })
  | .error e => (.error e, st)

/-- `verifyEmailCode.fulfilled` reducer (authSlice lines 491–496): sets
`user` from the payload and `isAuthenticated := true` — without storing
or requiring any token. -/
def verifyEmailCodeFulfilled (p : VerifyPayload) (s : AuthState) : AuthState :=
  { s with verificationLoading := false, user := p.user,
           isAuthenticated := true,
           successMessage := some "Email verified successfully!" }

/-- `verifyEmailCode.rejected` reducer (authSlice lines 497–500). -/
def verifyEmailCodeRejected (e : ErrPayload) (s : AuthState) : AuthState :=
  { s with verificationLoading := false, verificationError := some e }

/-- Dispatch of `verifyEmailCode`: pending reducer, payload creator,
settled reducer. -/
def verifyEmailCodeDispatch (serverResult : Except ErrPayload VerifyPayload)
    (s : AuthState) (st : Storage) : AuthState × Storage :=
  let s := { s with verificationLoading := true, verificationError := none }
  match verifyEmailCodeRun serverResult st with
  | (.ok p, st') => (verifyEmailCodeFulfilled p s, st')
  | (.error e, st') => (verifyEmailCodeRejected e s, st')

/-- Payload of a successful (non-2FA) `ownerLogin`: the server contract
guarantees `user` and `tokens` on that path. -/
structure OwnerLoginPayload where
  requires_2fa : Bool := false
  user : UserData
  tokens : Tokens
  deriving Repr, DecidableEq

/-- `ownerLogin.fulfilled` reducer (authSlice lines 390–420).  `arg` is
`action.meta.arg` (the submitted credentials), stashed when the server
demands a second factor. -/
def ownerLoginFulfilled (arg : String) (p : OwnerLoginPayload)
    (s : AuthState) (st : Storage) : AuthState × Storage :=
  let s := { s with loginLoading := false }
  if p.requires_2fa then
    ({ s with requires2FA := true, tempLoginData := some arg }, st)
  else
    let userData := { p.user with email_verified := some (p.user.email_verified.getD true) }
    ({ s with user := some userData, owner := some userData,
              token := some p.tokens.access, refreshToken := some p.tokens.refresh,
              isAuthenticated := true, isOwner := true,
              successMessage := some "Login successful" },
     { st with token := some p.tokens.access, refreshToken := some p.tokens.refresh,
               pendingVerificationEmail := none, pendingUserType := none })

/-- Payload of a successful `verify2FACode` (`authService.login` with a
`totp_token`): `tokens` are accessed unconditionally by the reducer,
`user` through optional chaining. -/
structure TwoFAPayload where
  user : Option UserData := none
  tokens : Tokens
  deriving Repr, DecidableEq

/-- `verify2FACode.fulfilled` reducer (authSlice lines 549–562). -/
def verify2FAFulfilled (p : TwoFAPayload) (s : AuthState) (st : Storage) :
    AuthState × Storage :=
  ({ s with verificationLoading := false, user := p.user,
            token := some p.tokens.access, refreshToken := some p.tokens.refresh,
            isAuthenticated := true,
            isOwner := userTypeIs p.user "owner",
            requires2FA := false, tempLoginData := none,
            successMessage := some "Login successful" },
   { st with token := some p.tokens.access, refreshToken := some p.tokens.refresh })

/-- Social-login server payload; the reducer reads `tokens` through
optional chaining, so both fields may be absent. -/
structure SocialPayload where
  user : Option UserData := none
  tokens : Option Tokens := none
  deriving Repr, DecidableEq

/-- `socialLogin` payload creator (authSlice lines 187–210).  The result
triple carries the thunk outcome, the storage, and the number of
authentication network calls performed.  For a provider outside
{google, facebook} the code throws `Error('Unsupported provider: …')`
before any network call; the catch then evaluates `error.response?.data` and falls back — a plain
`Error` has no `response` — to an object whose `error` field is the
provider name followed by " authentication failed". -/
def socialLoginRun (provider : String)
    (googleResult facebookResult : Except (Option ErrPayload) SocialPayload)
    (st : Storage) : Except ErrPayload SocialPayload × Storage × Nat :=
  if provider = "google" ∨ provider = "facebook" then
    let r := if provider = "google" then googleResult else facebookResult
    match r with
    | .ok resp =>
      let st' :=
        if truthy (resp.tokens.map (·.access)) then
          { st with token := resp.tokens.map (·.access),
                    refreshToken := resp.tokens.map (·.refresh) }
        else st
      (.ok resp, st', 1)
    | .error respData =>
      (.error (respData.getD ⟨some (provider ++ " authentication failed"), false, none⟩),
       st, 1)
  else
    (.error ⟨some (provider ++ " authentication failed"), false, none⟩, st, 0)

/-- `socialLogin.fulfilled` reducer (authSlice lines 569–576). -/
def socialLoginFulfilled (p : SocialPayload) (s : AuthState) : AuthState :=
  { s with user := p.user,
           token := p.tokens.map (·.access),
           refreshToken := p.tokens.map (·.refresh),
           isAuthenticated := true,
           isOwner := userTypeIs p.user "owner",
           successMessage := some "Login successful" }

/-- `socialLogin.rejected` reducer (authSlice lines 577–579). -/
def socialLoginRejected (e : ErrPayload) (s : AuthState) : AuthState :=
  { s with loginError := some e }

/-- Dispatch of `socialLogin`: payload creator, then the settled reducer
(the slice registers no pending reducer for it). -/
def socialLoginDispatch (provider : String)
    (googleResult facebookResult : Except (Option ErrPayload) SocialPayload)
    (s : AuthState) (st : Storage) : AuthState × Storage × Nat :=
  match socialLoginRun provider googleResult facebookResult st with
  | (.ok p, st', n) => (socialLoginFulfilled p s, st', n)
  | (.error e, st', n) => (socialLoginRejected e s, st', n)

/-! ## Route guard (`frontend-owner/src/components/ProtectedRoute.jsx`) -/

/-- JS `String.prototype.includes` for a non-empty pattern. -/
def strIncludes (s pat : String) : Bool :=
  (s.splitOn pat).length > 1

/-- Truthiness of `user?.email_verified`. -/
def userEmailVerified (u : Option UserData) : Bool :=
  match u with
  | some ud => ud.email_verified = some true
  | none => false

/-- What `ProtectedRoute` renders. -/
inductive RouteDecision
  /-- the "Checking authentication..." spinner (loading branch). -/
  | waiting
  /-- `<Navigate to=… replace />`. -/
  | navigate (dest : String)
  /-- renders `children`. -/
  | render
  /-- a thrown TypeError (`user.user_type` with `user == null`). -/
  | tyError
  deriving Repr, DecidableEq

/-- The props of `ProtectedRoute` with their source defaults. -/
structure RouteProps where
  requiredPermission : Option String := none
  restaurantId : Option String := none
  ownerOnly : Bool := false
  requireEmailVerified : Bool := true
  allowUnverified : Bool := false
  deriving Repr, DecidableEq

/-- `ProtectedRoute` (lines 6–78), decision branches in source order:
loading spinner; authenticated+verified on `/login` → `/owner/dashboard`;
unauthenticated without pending verification → `/login`; unauthenticated
with pending verification off the verify route → `/verify-email`;
authenticated but unverified off the allowed paths → `/verify-email`;
owner-only mismatch → `/unauthorized` (a null `user` throws there);
failed permission check → `/unauthorized`; otherwise render. -/
def protectedRoute (props : RouteProps) (loading isAuthenticated : Bool)
    (user : Option UserData) (pendingVerificationEmail : Option String)
    (pathname : String) : RouteDecision :=
  if loading then
    .waiting
  else
    let hasPendingVerification := truthy pendingVerificationEmail
    if isAuthenticated ∧ userEmailVerified user ∧ pathname = "/login" then
      .navigate "/owner/dashboard"
    else if ¬isAuthenticated ∧ ¬hasPendingVerification then
      .navigate "/login"
    else if ¬isAuthenticated ∧ hasPendingVerification ∧
        ¬strIncludes pathname "/verify-email" then
      .navigate "/verify-email"
    else if isAuthenticated ∧ props.requireEmailVerified ∧ ¬userEmailVerified user ∧
        ¬(strIncludes pathname "/verify-email" ∨ strIncludes pathname "/logout" ∨
          strIncludes pathname "/settings") ∧ ¬props.allowUnverified then
      .navigate "/verify-email"
    else if isAuthenticated ∧ props.ownerOnly then
      match user with
      | none => .tyError
      | some u =>
        if u.user_type ≠ "owner" then .navigate "/unauthorized"
        else if truthy props.requiredPermission ∧
            ¬hasPermission user (props.requiredPermission.getD "") props.restaurantId then
          .navigate "/unauthorized"
        else .render
    else if isAuthenticated ∧ truthy props.requiredPermission ∧
        ¬hasPermission user (props.requiredPermission.getD "") props.restaurantId then
      .navigate "/unauthorized"
    else
      .render

/-! ## HTTP response interceptor of the customer client
(`frontend-customer/src/services/api.js`, lines 64–121)

One original request is processed against a server oracle.  `fuel` bounds
the resend recursion (`return api(originalRequest)`); every theorem about
this model quantifies over or fixes the fuel explicitly.  The pre-send
request interceptor (CSRF header attachment) performs no recovery and is
not modelled here. -/

/-- An HTTP response as seen by the response interceptor: success, or an
error with `error.response?.status` (`none` = network error, no response). -/
inductive HttpResp
  | ok
  | err (status : Option Nat)
  deriving Repr, DecidableEq

/-- Customer-side persisted keys touched by the interceptor. -/
structure CustStorage where
  access_token : Option String := none
  refresh_token : Option String := none
  userJson : Option String := none
  deriving Repr, DecidableEq

/-- Mutable context of one customer-client run. -/
structure CustRun where
  store : CustStorage
  /-- the `csrftoken` cookie read by `getCSRFToken()`. -/
  cookie : Option String := none
  csrfFetches : Nat := 0
  refreshCalls : Nat := 0
  originalSends : Nat := 0
  /-- number of CSRF recoveries performed for this original request. -/
  csrfRecoveries : Nat := 0
  /-- number of token-refresh recoveries performed for this original request. -/
  refreshRecoveries : Nat := 0
  /-- `window.location.href = '/login'` happened. -/
  redirectedToLogin : Bool := false
  deriving Repr, DecidableEq

/-- Server oracle for the customer client: the `k`-th send of the original
request, the `k`-th CSRF fetch, the `k`-th refresh call (plain `axios`,
not the intercepted instance). -/
structure CustServer where
  original : Nat → HttpResp
  csrf : Nat → Except Unit String
  refresh : Nat → Except (Option Nat) String

/-- `ensureCSRFToken()` (lines 13–29) in the sequential recovery path:
return the cookie when truthy; otherwise fetch — on failure the catch
only warns and the falsy cookie value (`''`) is returned.  Never throws. -/
def custEnsure (srv : CustServer) (rs : CustRun) : String × CustRun :=
  if truthy rs.cookie then
    (rs.cookie.getD "", rs)
  else
    let r := srv.csrf rs.csrfFetches
    let rs := { rs with csrfFetches := rs.csrfFetches + 1 }
    match r with
    | .ok tok => (tok, rs)
    | .error _ => ("", rs)

/-- Final outcome of one original request in the customer client. -/
inductive CustOutcome
  /-- a response passed through the success handler. -/
  | success
  /-- `Promise.reject(error)` with the original error. -/
  | rejected (status : Option Nat)
  /-- `Promise.reject(refreshError)` after refresh failure. -/
  | rejectedRefreshErr (status : Option Nat)
  deriving Repr, DecidableEq

/-- Per-request flags of the customer client: both the 403 branch and the
401 branch test and set the same `_retry` flag (lines 70 and 90). -/
structure CustFlags where
  retry : Bool := false
  deriving Repr, DecidableEq

/-- The customer response interceptor (lines 64–121) for one original
request.  On 403 with `_retry` unset: set it, run `ensureCSRFToken` (which
cannot throw, so the catch that clears storage there is unreachable),
attach the result and resend.  On 401 with `_retry` unset: set it; with a
refresh token present, POST the refresh endpoint via plain `axios` (no
interceptor); on success persist the new access token and resend; on
failure remove `access_token`/`refresh_token`/`user`, redirect to
`/login`, and reject with the refresh error.  Anything else rejects with
the original error. -/
def custProcess (srv : CustServer) : Nat → CustFlags → CustRun →
    Option (CustOutcome × CustRun)
  | 0, _, _ => none
  | fuel + 1, fl, rs =>
    let resp := srv.original rs.originalSends
    let rs := { rs with originalSends := rs.originalSends + 1 }
    match resp with
    | .ok => some (.success, rs)
    | .err status =>
      if status = some 403 ∧ ¬fl.retry then
        let fl : CustFlags := { retry := true }
        let rs := { rs with csrfRecoveries := rs.csrfRecoveries + 1 }
        let (_tok, rs) := custEnsure srv rs
        custProcess srv fuel fl rs
      else if status = some 401 ∧ ¬fl.retry then
        let fl : CustFlags := { retry := true }
        if truthy rs.store.refresh_token then
          let r := srv.refresh rs.refreshCalls
          let rs := { rs with refreshCalls := rs.refreshCalls + 1,
                              refreshRecoveries := rs.refreshRecoveries + 1 }
          match r with
          | .ok access =>
            let rs := { rs with store.access_token := some access }
            custProcess srv fuel fl rs
          | .error rstat =>
            some (.rejectedRefreshErr rstat,
              { rs with store := { access_token := none, refresh_token := none,
                                   userJson := none },
                        redirectedToLogin := true })
        else
          some (.rejected status, rs)
      else
        some (.rejected status, rs)

/-! ## HTTP response interceptor of the owner client
(`src/unnamed/part_008`, lines 97–145)

Unlike the customer client, the 403 branch is guarded by `_csrfRetried`
and the 401 branch by a separate `_retry` flag, and the token-refresh
POST is issued through the same intercepted `api` instance, so the
interceptor applies to the refresh request itself. -/

/-- Per-request flags of the owner client. -/
structure OwnerFlags where
  csrfRetried : Bool := false
  retry : Bool := false
  isCSRFRequest : Bool := false
  deriving Repr, DecidableEq

/-- Mutable context of one owner-client run. -/
structure OwnerRun where
  store : Storage
  /-- module-level `csrfToken` cache in `services/api.js`. -/
  csrfMem : Option String := none
  csrfFetches : Nat := 0
  refreshCalls : Nat := 0
  originalSends : Nat := 0
  /-- CSRF recoveries performed for the original request. -/
  origCsrfRecoveries : Nat := 0
  /-- token-refresh recoveries performed for the original request. -/
  origRefreshRecoveries : Nat := 0
  deriving Repr, DecidableEq

/-- Server oracle for the owner client. -/
structure OwnerServer where
  original : Nat → HttpResp
  csrf : Nat → FetchOutcome
  refresh : Nat → HttpResp
  /-- access token carried by the `k`-th successful refresh response. -/
  refreshAccess : Nat → String

/-- `getCSRFToken(true)` in the sequential recovery path (no concurrent
in-flight promise): start a fetch and apply the completion logic of
part_008 lines 45–69 — a truthy token is cached in memory and storage; a
missing token throws without clearing; an HTTP 403/401 failure clears
memory and storage; any other failure clears nothing. -/
def ownerCsrfFetch (srv : OwnerServer) (rs : OwnerRun) :
    Except (Option Nat) String × OwnerRun :=
  let o := srv.csrf rs.csrfFetches
  let rs := { rs with csrfFetches := rs.csrfFetches + 1 }
  match o with
  | .success tok =>
    if tok ≠ "" then
      (.ok tok, { rs with csrfMem := some tok, store.csrfToken := some tok })
    else
      (.error none, rs)
  | .failure status =>
    if status = some 403 ∨ status = some 401 then
      (.error status, { rs with csrfMem := none, store.csrfToken := none })
    else
      (.error status, rs)

/-- The owner response interceptor applied to a token-refresh request
(`api.post('/auth/token/refresh/')` goes through the same instance).  The
refresh request is a state-changing first-party request without the
`X-CSRF-Request` header, with fresh flags.  A 403 answer triggers one
CSRF recovery and a resend of the refresh request; a 401 answer with a
refresh token present triggers a *nested* refresh request (fresh flags
again), whose success persists the token and resends this one.  Errors
reject with the refresh request's original error status. -/
def refreshViaApi (srv : OwnerServer) : Nat → OwnerFlags → OwnerRun →
    Option (Except (Option Nat) String × OwnerRun)
  | 0, _, _ => none
  | fuel + 1, fl, rs =>
    let resp := srv.refresh rs.refreshCalls
    let access := srv.refreshAccess rs.refreshCalls
    let rs := { rs with refreshCalls := rs.refreshCalls + 1 }
    match resp with
    | .ok => some (.ok access, rs)
    | .err status =>
      if status = some 403 ∧ ¬fl.csrfRetried ∧ ¬fl.isCSRFRequest then
        let fl := { fl with csrfRetried := true }
        match ownerCsrfFetch srv rs with
        | (.ok _, rs) =>
          if truthy rs.csrfMem then
            refreshViaApi srv fuel fl rs
          else
            some (.error status, rs)
        | (.error _, rs) =>
          -- Error('Security token validation failed') — no response status
          some (.error none, rs)
      else if status = some 401 ∧ ¬fl.retry then
        let fl := { fl with retry := true }
        if truthy rs.store.refreshToken then
          match refreshViaApi srv fuel {} rs with
          | some (.ok newAccess, rs) =>
            let rs := { rs with store.token := some newAccess }
            refreshViaApi srv fuel fl rs
          | some (.error _, rs) => some (.error status, rs)
          | none => none
        else
          some (.error status, rs)
      else
        some (.error status, rs)

/-- Final outcome of one original request in the owner client. -/
inductive OwnerOutcome
  /-- a response passed through the success handler. -/
  | success
  /-- `Promise.reject(new Error('Security token validation failed'))`. -/
  | terminalCsrfError
  /-- `Promise.reject(error)` with the original error. -/
  | rejected (status : Option Nat)
  deriving Repr, DecidableEq

/-- The owner response interceptor (part_008 lines 97–145) for one
original request.  403 with `_csrfRetried` unset and not a CSRF-bootstrap
request: set the flag, force-refresh the CSRF token, and — if the cache is
truthy — reattach and resend; a CSRF fetch failure yields the terminal
"Security token validation failed" error.  401 with `_retry` unset: set
the flag; with a refresh token present, refresh through the intercepted
instance, persist the new access token and resend on success; on refresh
failure the catch only logs and the original error is rejected — no
storage is cleared.  Everything else rejects the original error. -/
def ownerProcess (srv : OwnerServer) : Nat → OwnerFlags → OwnerRun →
    Option (OwnerOutcome × OwnerRun)
  | 0, _, _ => none
  | fuel + 1, fl, rs =>
    let resp := srv.original rs.originalSends
    let rs := { rs with originalSends := rs.originalSends + 1 }
    match resp with
    | .ok => some (.success, rs)
    | .err status =>
      if status = some 403 ∧ ¬fl.csrfRetried ∧ ¬fl.isCSRFRequest then
        let fl := { fl with csrfRetried := true }
        let rs := { rs with origCsrfRecoveries := rs.origCsrfRecoveries + 1 }
        match ownerCsrfFetch srv rs with
        | (.ok _, rs) =>
          if truthy rs.csrfMem then
            ownerProcess srv fuel fl rs
          else
            some (.rejected status, rs)
        | (.error _, rs) => some (.terminalCsrfError, rs)
      else if status = some 401 ∧ ¬fl.retry then
        let fl := { fl with retry := true }
        if truthy rs.store.refreshToken then
          let rs := { rs with origRefreshRecoveries := rs.origRefreshRecoveries + 1 }
          match refreshViaApi srv fuel {} rs with
          | some (.ok newAccess, rs) =>
            let rs := { rs with store.token := some newAccess }
            ownerProcess srv fuel fl rs
          | some (.error _, rs) => some (.rejected status, rs)
          | none => none
        else
          some (.rejected status, rs)
      else
        some (.rejected status, rs)

/-! ## Claims -/

/-- C10: `hasPermission(user, permission, restaurantId)` returns `false`
when `user` is null, when `user.user_type` is neither `'owner'` nor
`'staff'`, and when it is `'staff'` without a `staff_profile`; and it
returns `true` for every permission and every `restaurantId` when
`user.user_type == 'owner'` — the owner path performs no check that the
given restaurant belongs to that owner. -/
theorem hasPermission_c10 :
    (∀ (perm : String) (rid : Option String), hasPermission none perm rid = false)
  ∧ (∀ (u : UserData) (perm : String) (rid : Option String),
      u.user_type = "owner" → hasPermission (some u) perm rid = true)
  ∧ (∀ (u : UserData) (perm : String) (rid : Option String),
      u.user_type ≠ "owner" → u.user_type ≠ "staff" →
        hasPermission (some u) perm rid = false)
  ∧ (∀ (u : UserData) (perm : String) (rid : Option String),
      u.user_type = "staff" → u.staff_profile = none →
        hasPermission (some u) perm rid = false) := by
  refine ⟨fun _ _ => rfl, ?_, ?_, ?_⟩
  · intro u perm rid h
    simp [hasPermission, h]
  · intro u perm rid h1 h2
    simp [hasPermission, h1, h2]
  · intro u perm rid h1 h2
    simp [hasPermission, h1, h2]

/-- Witness for C10 at concrete users. -/
theorem hasPermission_c10_witness :
    hasPermission none "manage_menu" (some "r1") = false
  ∧ hasPermission (some { email := "o@x", user_type := "owner" }) "anything" (some "r2") = true
  ∧ hasPermission (some { email := "c@x", user_type := "customer" }) "manage_menu" none = false
  ∧ hasPermission (some { email := "s@x", user_type := "staff" }) "manage_menu" none = false :=
  ⟨hasPermission_c10.1 "manage_menu" (some "r1"),
   hasPermission_c10.2.1 { email := "o@x", user_type := "owner" } "anything" (some "r2") rfl,
   hasPermission_c10.2.2.1 { email := "c@x", user_type := "customer" } "manage_menu" none
     (by decide) (by decide),
   hasPermission_c10.2.2.2 { email := "s@x", user_type := "staff" } "manage_menu" none rfl rfl⟩

/-- C8 counterexample: a session that is authenticated with
`email_verified == true` for a `staff` user targeting `/login` is
redirected to `/owner/dashboard`, not to a staff dashboard — the guard
has no account-type branching. -/
theorem protectedRoute_c8_counterexample :
    protectedRoute {} false true
      (some { email := "s@x", email_verified := some true, user_type := "staff" })
      none "/login" = .navigate "/owner/dashboard"
  ∧ RouteDecision.navigate "/owner/dashboard" ≠ .navigate "/staff/dashboard" := by
  exact ⟨rfl, by decide⟩

/-- C8 amended: while the session is hydrating (`loading == true`) the
guard renders the waiting state and makes no redirect decision; otherwise
every authenticated session with `email_verified == true` targeting
`/login` is redirected to `/owner/dashboard` regardless of the user's
account type. -/
theorem protectedRoute_c8_amended :
    (∀ (props : RouteProps) (isAuth : Bool) (user : Option UserData)
       (pending : Option String) (path : String),
       protectedRoute props true isAuth user pending path = .waiting)
  ∧ (∀ (props : RouteProps) (user : Option UserData) (pending : Option String),
       userEmailVerified user = true →
       protectedRoute props false true user pending "/login"
         = .navigate "/owner/dashboard") := by
  constructor
  · intro props isAuth user pending path
    simp [protectedRoute]
  · intro props user pending h
    simp [protectedRoute, h]

/-- Witness for C8 amended at a concrete verified owner user. -/
theorem protectedRoute_c8_amended_witness :
    protectedRoute {} false true
      (some { email := "o@x", email_verified := some true, user_type := "owner" })
      none "/login" = .navigate "/owner/dashboard" :=
  protectedRoute_c8_amended.2 {}
    (some { email := "o@x", email_verified := some true, user_type := "owner" })
    none rfl

/-- C2 counterexample: the state created at application start with a
persisted token has `isAuthenticated == true` while `user == null`, so
the claimed biconditional (`isAuthenticated` iff token present and
non-empty and `user` present) fails in a reachable state. -/
theorem authInvariant_c2_counterexample :
    ¬ (((initialAuthState { token := some "tok" }).isAuthenticated = true) ↔
       (truthy (initialAuthState { token := some "tok" }).token = true ∧
        (initialAuthState { token := some "tok" }).user.isSome = true)) := by
  decide

/-- C2 amended: a successful non-2FA `ownerLogin` and a successful
`verify2FACode` do establish `isAuthenticated == true` together with a
non-empty stored access token (and, for `ownerLogin`, a user object);
but the application-start state derives `isAuthenticated` from token
presence alone while `user` is still null, and `verifyEmailCode` success
sets `isAuthenticated == true` without touching the token, so the
biconditional does not hold in every reachable state. -/
theorem authInvariant_c2_amended :
    (∀ (arg : String) (p : OwnerLoginPayload) (s : AuthState) (st : Storage),
       p.requires_2fa = false → p.tokens.access ≠ "" →
       ((ownerLoginFulfilled arg p s st).1.isAuthenticated = true
        ∧ truthy (ownerLoginFulfilled arg p s st).1.token = true
        ∧ (ownerLoginFulfilled arg p s st).1.user.isSome = true
        ∧ (ownerLoginFulfilled arg p s st).2.token = some p.tokens.access))
  ∧ (∀ (p : TwoFAPayload) (s : AuthState) (st : Storage),
       p.tokens.access ≠ "" →
       ((verify2FAFulfilled p s st).1.isAuthenticated = true
        ∧ truthy (verify2FAFulfilled p s st).1.token = true
        ∧ (verify2FAFulfilled p s st).2.token = some p.tokens.access))
  ∧ (∀ (p : VerifyPayload) (s : AuthState),
       (verifyEmailCodeFulfilled p s).isAuthenticated = true
       ∧ (verifyEmailCodeFulfilled p s).token = s.token) := by
  refine ⟨?_, ?_, ?_⟩
  · intro arg p s st h2fa hacc
    simp [ownerLoginFulfilled, h2fa, truthy, hacc]
  · intro p s st hacc
    simp [verify2FAFulfilled, truthy, hacc]
  · intro p s
    exact ⟨rfl, rfl⟩

/-- Witness for C2 amended at a concrete login payload. -/
theorem authInvariant_c2_amended_witness :
    ((ownerLoginFulfilled "creds"
        { user := { email := "o@x", user_type := "owner" },
          tokens := { access := "A", refresh := "R" } }
        (initialAuthState {}) {}).1.isAuthenticated = true
     ∧ truthy (ownerLoginFulfilled "creds"
        { user := { email := "o@x", user_type := "owner" },
          tokens := { access := "A", refresh := "R" } }
        (initialAuthState {}) {}).1.token = true
     ∧ (ownerLoginFulfilled "creds"
        { user := { email := "o@x", user_type := "owner" },
          tokens := { access := "A", refresh := "R" } }
        (initialAuthState {}) {}).1.user.isSome = true
     ∧ (ownerLoginFulfilled "creds"
        { user := { email := "o@x", user_type := "owner" },
          tokens := { access := "A", refresh := "R" } }
        (initialAuthState {}) {}).2.token = some "A") :=
  authInvariant_c2_amended.1 "creds"
    { user := { email := "o@x", user_type := "owner" },
      tokens := { access := "A", refresh := "R" } }
    (initialAuthState {}) {} rfl (by decide)

/-- C4 counterexample: after a successful CSRF initialization, `logout`
leaves `csrfInitialized == true`, so the resulting state is not the
initial empty state even though all persisted keys are removed. -/
theorem logout_c4_counterexample :
    (logoutRun true (initializeCSRFFulfilled (initialAuthState {})) {}).1
      ≠ initialAuthState {}
  ∧ (logoutRun true (initializeCSRFFulfilled (initialAuthState {})) {}).1.csrfInitialized
      = true := by
  decide

/-- C4 amended: `logout` (server call succeeding or not) removes every
persisted key, resets all authentication fields (`isAuthenticated`,
`user`, tokens, 2FA state), and is idempotent — a second `logout` from
the resulting state yields the identical state and storage; but the
loading flags and the CSRF status fields (`csrfInitialized`,
`csrfLoading`, `csrfError`) are not reset, so the result equals the
initial empty state only when those already held their initial values. -/
theorem logout_c4_amended :
    ∀ (ok : Bool) (s : AuthState) (st : Storage),
      (logoutRun ok s st).2 = { token := none, refreshToken := none, csrfToken := none,
                                pendingVerificationEmail := none, pendingUserType := none }
      ∧ (logoutRun ok s st).1.isAuthenticated = false
      ∧ (logoutRun ok s st).1.user = none
      ∧ (logoutRun ok s st).1.token = none
      ∧ (logoutRun ok s st).1.refreshToken = none
      ∧ (logoutRun ok s st).1.requires2FA = false
      ∧ (∀ ok₂ : Bool,
          logoutRun ok₂ (logoutRun ok s st).1 (logoutRun ok s st).2 = logoutRun ok s st) := by
  intro ok s st
  refine ⟨?_, ?_, ?_, ?_, ?_, ?_, ?_⟩ <;>
    first
      | (cases ok <;> rfl)
      | (intro ok₂; cases ok <;> cases ok₂ <;> rfl)

/-- C7: `register(profile)` persists `pendingVerificationEmail ==
profile.email` (and `pendingUserType == 'owner'`) and does not
authenticate; a successful `verifyEmailCode` clears both markers and
yields `isAuthenticated == true`; a failed `verifyEmailCode` leaves the
storage (hence the markers) untouched, records the verification error,
and does not change `isAuthenticated`. -/
theorem verification_c7_roundtrip :
    (∀ (msg email : String) (s : AuthState) (st : Storage),
       (ownerRegisterDispatch (.ok msg) email s st).2.pendingVerificationEmail = some email
       ∧ (ownerRegisterDispatch (.ok msg) email s st).2.pendingUserType = some "owner"
       ∧ (ownerRegisterDispatch (.ok msg) email s st).1.isAuthenticated = s.isAuthenticated
       ∧ (ownerRegisterDispatch (.ok msg) email s st).1.token = s.token)
  ∧ (∀ (p : VerifyPayload) (s : AuthState) (st : Storage),
       (verifyEmailCodeDispatch (.ok p) s st).2.pendingVerificationEmail = none
       ∧ (verifyEmailCodeDispatch (.ok p) s st).2.pendingUserType = none
       ∧ (verifyEmailCodeDispatch (.ok p) s st).1.isAuthenticated = true)
  ∧ (∀ (e : ErrPayload) (s : AuthState) (st : Storage),
       (verifyEmailCodeDispatch (.error e) s st).2 = st
       ∧ (verifyEmailCodeDispatch (.error e) s st).1.verificationError = some e
       ∧ (verifyEmailCodeDispatch (.error e) s st).1.isAuthenticated = s.isAuthenticated) := by
  refine ⟨?_, ?_, ?_⟩
  · intro msg email s st
    exact ⟨rfl, rfl, rfl, rfl⟩
  · intro p s st
    exact ⟨rfl, rfl, rfl⟩
  · intro e s st
    exact ⟨rfl, rfl, rfl⟩

/-- C9 counterexample: `socialLogin('github', token)` performs no network
call but rejects with the payload `{ error: 'github authentication
failed' }` — the internal `Unsupported provider: github` message is not
the surfaced error. -/
theorem socialLogin_c9_counterexample :
    (socialLoginDispatch "github" (.error none) (.error none)
        (initialAuthState {}) {}).2.2 = 0
  ∧ (socialLoginDispatch "github" (.error none) (.error none)
        (initialAuthState {}) {}).1.loginError
      = some { errMsg := some "github authentication failed" }
  ∧ (some { errMsg := some "github authentication failed" } : Option ErrPayload)
      ≠ some { errMsg := some "Unsupported provider: github" } := by
  refine ⟨rfl, rfl, by decide⟩

/-- C9 amended: an unknown provider performs no authentication network
call and rejects with the normalized payload whose message is the
provider name followed by " authentication failed" (the thrown
"Unsupported provider" message is replaced by that fallback); a known
provider's success stores the tokens, sets the user, and sets
`isAuthenticated == true` — the same success effect password login
establishes. -/
theorem socialLogin_c9_amended :
    (∀ (provider : String) (gr fr : Except (Option ErrPayload) SocialPayload)
       (s : AuthState) (st : Storage),
       provider ≠ "google" → provider ≠ "facebook" →
       socialLoginDispatch provider gr fr s st =
         (socialLoginRejected
            { errMsg := some (provider ++ " authentication failed") } s, st, 0))
  ∧ (∀ (u : UserData) (tk : Tokens) (fr : Except (Option ErrPayload) SocialPayload)
       (s : AuthState) (st : Storage), tk.access ≠ "" →
       ((socialLoginDispatch "google" (.ok { user := some u, tokens := some tk })
           fr s st).1.isAuthenticated = true
        ∧ (socialLoginDispatch "google" (.ok { user := some u, tokens := some tk })
           fr s st).1.user = some u
        ∧ (socialLoginDispatch "google" (.ok { user := some u, tokens := some tk })
           fr s st).1.token = some tk.access
        ∧ (socialLoginDispatch "google" (.ok { user := some u, tokens := some tk })
           fr s st).2.1.token = some tk.access
        ∧ (socialLoginDispatch "google" (.ok { user := some u, tokens := some tk })
           fr s st).2.1.refreshToken = some tk.refresh
        ∧ (socialLoginDispatch "google" (.ok { user := some u, tokens := some tk })
           fr s st).2.2 = 1)) := by
  constructor
  · intro provider gr fr s st h1 h2
    simp [socialLoginDispatch, socialLoginRun, h1, h2]
  · intro u tk fr s st hacc
    simp [socialLoginDispatch, socialLoginRun, socialLoginFulfilled, truthy, hacc]

/-- Witness for C9 amended: concrete unknown provider and concrete
google success. -/
theorem socialLogin_c9_amended_witness :
    (socialLoginDispatch "twitter" (.error none) (.error none)
        (initialAuthState {}) {} =
      (socialLoginRejected
         { errMsg := some ("twitter" ++ " authentication failed") }
         (initialAuthState {}), {}, 0))
  ∧ (socialLoginDispatch "google"
        (.ok { user := some { email := "g@x", user_type := "owner" },
               tokens := some { access := "GA", refresh := "GR" } })
        (.error none) (initialAuthState {}) {}).1.isAuthenticated = true :=
  ⟨socialLogin_c9_amended.1 "twitter" (.error none) (.error none)
     (initialAuthState {}) {} (by decide) (by decide),
   (socialLogin_c9_amended.2 { email := "g@x", user_type := "owner" }
     { access := "GA", refresh := "GR" } (.error none)
     (initialAuthState {}) {} (by decide)).1⟩

/-- C6 counterexample: a CSRF acquisition that fails as a network error
(no HTTP response status) leaves the cached token in memory and in
storage — the coordinator clears the cache only on 403/401-status
failures, not on any failure. -/
theorem csrfFailure_c6_counterexample :
    getCSRFTokenComplete (.failure none) ⟨some "stale", some "stale", true, 1, 1⟩
      = (.rejected none, ⟨some "stale", some "stale", false, 1, 1⟩)
  ∧ (some "stale" : Option String) ≠ none := by
  exact ⟨rfl, by decide⟩

/-- C6 amended: a CSRF acquisition failure clears the cached token
(memory and storage) exactly when it carries HTTP status 403 or 401;
any other failure leaves the cache unchanged; in every case the shared
in-flight slot is released and the single settlement (`rejected status`)
is what the initiating caller and all joined waiters observe; and the
owner `initializeCSRF` thunk converts acquisition failure into a
fulfilled result, leaving `csrfError == null` (the `rejected` reducer,
the only writer of `csrfError`, is not reached). -/
theorem csrfFailure_c6_amended :
    (∀ (s : CSRFState) (status : Option Nat),
       status = some 403 ∨ status = some 401 →
       getCSRFTokenComplete (.failure status) s =
         (.rejected status, { s with memTok := none, storeTok := none, inflight := false }))
  ∧ (∀ (s : CSRFState) (status : Option Nat),
       ¬(status = some 403 ∨ status = some 401) →
       getCSRFTokenComplete (.failure status) s =
         (.rejected status, { s with inflight := false }))
  ∧ (∀ (s : AuthState), (initializeCSRFRun false s).csrfError = none
       ∧ (initializeCSRFRun false s).csrfInitialized = true) := by
  refine ⟨?_, ?_, ?_⟩
  · intro s status h
    simp [getCSRFTokenComplete, h]
  · intro s status h
    simp [getCSRFTokenComplete, h]
  · intro s
    cases hs : s.csrfInitialized <;>
      simp [initializeCSRFRun, initializeCSRFPending, initializeCSRFFulfilled, hs]

/-- Witness for C6 amended at concrete failures. -/
theorem csrfFailure_c6_amended_witness :
    (getCSRFTokenComplete (.failure (some 403)) ⟨some "old", some "old", true, 2, 2⟩
       = (.rejected (some 403), ⟨none, none, false, 2, 2⟩))
  ∧ (getCSRFTokenComplete (.failure (some 500)) ⟨some "old", some "old", true, 2, 2⟩
       = (.rejected (some 500), ⟨some "old", some "old", false, 2, 2⟩))
  ∧ (initializeCSRFRun false (initialAuthState {})).csrfError = none :=
  ⟨csrfFailure_c6_amended.1 ⟨some "old", some "old", true, 2, 2⟩ (some 403) (Or.inl rfl),
   csrfFailure_c6_amended.2.1 ⟨some "old", some "old", true, 2, 2⟩ (some 500) (by decide),
   (csrfFailure_c6_amended.2.2 (initialAuthState {})).1⟩

/-- Once an acquisition is in flight, every further concurrent
`getCSRFToken` caller joins it and the state is unchanged. -/
theorem runConcurrentCSRF_inflight (n : Nat) (s : CSRFState) (h : s.inflight = true) :
    runConcurrentCSRF true n s = (List.replicate n .joined, s) := by
  induction n with
  | zero => simp [runConcurrentCSRF]
  | succ n ih =>
    simp [runConcurrentCSRF, getCSRFTokenStart, h, ih, List.replicate_succ]

/-- C1 counterexample: in the customer client, two concurrent
`ensureCSRFToken()` callers finding no CSRF cookie each start their own
upstream fetch — the count of CSRF-fetch calls is 2, not 1. -/
theorem csrfSingleFlight_c1_counterexample :
    runConcurrentEnsure 2 ⟨none, 0⟩ = ([.startedFetch, .startedFetch], ⟨none, 2⟩)
  ∧ (2 : Nat) ≠ 1 := by
  exact ⟨rfl, by decide⟩

/-- C1 amended: the owner client's `getCSRFToken` is single-flight — for
any number of concurrent callers whose synchronous prefixes run before a
completion (force-refresh, as in the CSRF-stampede scenario), exactly one
upstream fetch is started: the first caller starts it and every other
caller joins the same in-flight operation.  The customer client's
`ensureCSRFToken` has no such de-duplication (see the counterexample). -/
theorem csrfSingleFlight_c1_amended :
    ∀ (n : Nat) (s : CSRFState), s.inflight = false →
      (runConcurrentCSRF true (n + 1) s).2.fetchCount = s.fetchCount + 1
      ∧ (runConcurrentCSRF true (n + 1) s).1 = .started :: List.replicate n .joined := by
  intro n s h
  have hs : getCSRFTokenStart true s =
      (.started, { s with inflight := true, fetchCount := s.fetchCount + 1,
                          initCount := s.initCount + 1 }) := by
    simp [getCSRFTokenStart, h]
  constructor <;>
    simp [runConcurrentCSRF, hs, runConcurrentCSRF_inflight]

/-- Witness for C1 amended: five concurrent force-refresh callers (the
spec's five-concurrent-requests scenario) produce exactly one fetch. -/
theorem csrfSingleFlight_c1_amended_witness :
    (runConcurrentCSRF true 5 ⟨some "old", some "old", false, 0, 0⟩).2.fetchCount = 0 + 1
  ∧ (runConcurrentCSRF true 5 ⟨some "old", some "old", false, 0, 0⟩).1
      = .started :: List.replicate 4 .joined :=
  csrfSingleFlight_c1_amended 4 ⟨some "old", some "old", false, 0, 0⟩ rfl

/-- A CSRF fetch in the recovery path never touches the per-original-request
recovery counters. -/
theorem ownerCsrfFetch_preserves (srv : OwnerServer) (rs : OwnerRun) :
    (ownerCsrfFetch srv rs).2.origCsrfRecoveries = rs.origCsrfRecoveries
  ∧ (ownerCsrfFetch srv rs).2.origRefreshRecoveries = rs.origRefreshRecoveries := by
  unfold ownerCsrfFetch
  rcases srv.csrf rs.csrfFetches with tok | status <;> simp <;> split <;> simp

/-- The interceptor acting on a token-refresh request (however deeply it
recurses) never touches the recovery counters of the original request. -/
theorem refreshViaApi_preserves (srv : OwnerServer) : ∀ (fuel : Nat) (fl : OwnerFlags)
    (rs : OwnerRun) (r : Except (Option Nat) String) (rs' : OwnerRun),
    refreshViaApi srv fuel fl rs = some (r, rs') →
    rs'.origCsrfRecoveries = rs.origCsrfRecoveries
    ∧ rs'.origRefreshRecoveries = rs.origRefreshRecoveries := by
  intro fuel
  induction fuel with
  | zero =>
    intro fl rs r rs' h
    simp [refreshViaApi] at h
  | succ fuel ih =>
    intro fl rs r rs' h
    rw [refreshViaApi] at h
    rcases hresp : srv.refresh rs.refreshCalls with _ | status <;>
      simp only [hresp] at h
    · simp at h
      obtain ⟨h1, h2⟩ := h
      subst h2
      simp
    · split at h
      · -- 403 branch: CSRF recovery of the refresh request
        rcases hfetch : ownerCsrfFetch srv { rs with refreshCalls := rs.refreshCalls + 1 }
          with ⟨res, rs₂⟩
        have hpre := ownerCsrfFetch_preserves srv { rs with refreshCalls := rs.refreshCalls + 1 }
        rw [hfetch] at hpre
        rcases res with fstat | tok <;> simp only [hfetch] at h
        · simp at h
          obtain ⟨h1, h2⟩ := h
          subst h2
          simp_all
        · split at h
          · have := ih _ _ _ _ h
            simp_all
          · simp at h
            obtain ⟨h1, h2⟩ := h
            subst h2
            simp_all
      · split at h
        · -- 401 branch with a refresh token: nested refresh then resend
          split at h
          · rcases hnest : refreshViaApi srv fuel { } { rs with refreshCalls := rs.refreshCalls + 1 }
              with _ | ⟨r₂, rs₂⟩
            · simp [hnest] at h
            · rcases r₂ with e | a <;> simp only [hnest] at h
              · simp at h
                obtain ⟨h1, h2⟩ := h
                have hp₁ := ih _ _ _ _ hnest
                subst h2
                simp_all
              · have hp₁ := ih _ _ _ _ hnest
                have hp₂ := ih _ _ _ _ h
                simp_all
          · simp at h
            obtain ⟨h1, h2⟩ := h
            subst h2
            simp_all
        · simp at h
          obtain ⟨h1, h2⟩ := h
          subst h2
          simp_all

/-- `ensureCSRFToken` touches neither the recovery counters nor the
token storage. -/
theorem custEnsure_preserves (srv : CustServer) (rs : CustRun) :
    (custEnsure srv rs).2.csrfRecoveries = rs.csrfRecoveries
  ∧ (custEnsure srv rs).2.refreshRecoveries = rs.refreshRecoveries
  ∧ (custEnsure srv rs).2.store = rs.store
  ∧ (custEnsure srv rs).2.originalSends = rs.originalSends := by
  unfold custEnsure
  split
  · simp
  · rcases srv.csrf rs.csrfFetches with _ | tok <;> simp

/-- Once `_csrfRetried` is set on the original request, no further CSRF
recovery is performed for it. -/
theorem ownerProcess_csrfRetried_frozen (srv : OwnerServer) : ∀ (fuel : Nat) (fl : OwnerFlags)
    (rs : OwnerRun) (out : OwnerOutcome) (rs' : OwnerRun),
    fl.csrfRetried = true →
    ownerProcess srv fuel fl rs = some (out, rs') →
    rs'.origCsrfRecoveries = rs.origCsrfRecoveries := by
  intro fuel
  induction fuel with
  | zero =>
    intro fl rs out rs' hflag h
    simp [ownerProcess] at h
  | succ fuel ih =>
    intro fl rs out rs' hflag h
    rw [ownerProcess] at h
    rcases hresp : srv.original rs.originalSends with _ | status <;>
      simp only [hresp] at h
    · simp at h
      obtain ⟨h1, h2⟩ := h
      subst h2
      simp
    · split at h
      · simp_all
      · split at h
        · split at h
          · rcases hnest : refreshViaApi srv fuel { }
                { rs with originalSends := rs.originalSends + 1,
                          origRefreshRecoveries := rs.origRefreshRecoveries + 1 }
              with _ | ⟨r₂, rs₂⟩
            · simp [hnest] at h
            · have hp₁ := refreshViaApi_preserves srv fuel _ _ _ _ hnest
              rcases r₂ with e | a <;> simp only [hnest] at h
              · simp at h
                obtain ⟨h1, h2⟩ := h
                subst h2
                simp_all
              · have hb := ih _ _ _ _ (by simp [hflag]) h
                simp_all
          · simp at h
            obtain ⟨h1, h2⟩ := h
            subst h2
            simp_all
        · simp at h
          obtain ⟨h1, h2⟩ := h
          subst h2
          simp

/-- The owner interceptor performs at most one CSRF recovery per original
request. -/
theorem ownerProcess_csrf_bound (srv : OwnerServer) : ∀ (fuel : Nat) (fl : OwnerFlags)
    (rs : OwnerRun) (out : OwnerOutcome) (rs' : OwnerRun),
    ownerProcess srv fuel fl rs = some (out, rs') →
    rs'.origCsrfRecoveries ≤ rs.origCsrfRecoveries + 1 := by
  intro fuel
  induction fuel with
  | zero =>
    intro fl rs out rs' h
    simp [ownerProcess] at h
  | succ fuel ih =>
    intro fl rs out rs' h
    rw [ownerProcess] at h
    rcases hresp : srv.original rs.originalSends with _ | status <;>
      simp only [hresp] at h
    · simp at h
      obtain ⟨h1, h2⟩ := h
      subst h2
      simp
    · split at h
      · rcases hfetch : ownerCsrfFetch srv
            { rs with originalSends := rs.originalSends + 1,
                      origCsrfRecoveries := rs.origCsrfRecoveries + 1 }
          with ⟨res, rs₂⟩
        have hpre := ownerCsrfFetch_preserves srv
          { rs with originalSends := rs.originalSends + 1,
                    origCsrfRecoveries := rs.origCsrfRecoveries + 1 }
        rw [hfetch] at hpre
        rcases res with fstat | tok <;> simp only [hfetch] at h
        · simp at h
          obtain ⟨h1, h2⟩ := h
          subst h2
          simp_all
        · split at h
          · have hfr := ownerProcess_csrfRetried_frozen srv fuel _ _ _ _ (by simp) h
            simp_all
          · simp at h
            obtain ⟨h1, h2⟩ := h
            subst h2
            simp_all
      · split at h
        · split at h
          · rcases hnest : refreshViaApi srv fuel { }
                { rs with originalSends := rs.originalSends + 1,
                          origRefreshRecoveries := rs.origRefreshRecoveries + 1 }
              with _ | ⟨r₂, rs₂⟩
            · simp [hnest] at h
            · have hp₁ := refreshViaApi_preserves srv fuel _ _ _ _ hnest
              rcases r₂ with e | a <;> simp only [hnest] at h
              · simp at h
                obtain ⟨h1, h2⟩ := h
                subst h2
                simp_all
              · have hb := ih _ _ _ _ h
                simp_all
          · simp at h
            obtain ⟨h1, h2⟩ := h
            subst h2
            simp
        · simp at h
          obtain ⟨h1, h2⟩ := h
          subst h2
          simp

/-- Once `_retry` is set on the original request, no further token-refresh
recovery is performed for it. -/
theorem ownerProcess_retry_frozen (srv : OwnerServer) : ∀ (fuel : Nat) (fl : OwnerFlags)
    (rs : OwnerRun) (out : OwnerOutcome) (rs' : OwnerRun),
    fl.retry = true →
    ownerProcess srv fuel fl rs = some (out, rs') →
    rs'.origRefreshRecoveries = rs.origRefreshRecoveries := by
  intro fuel
  induction fuel with
  | zero =>
    intro fl rs out rs' hflag h
    simp [ownerProcess] at h
  | succ fuel ih =>
    intro fl rs out rs' hflag h
    rw [ownerProcess] at h
    rcases hresp : srv.original rs.originalSends with _ | status <;>
      simp only [hresp] at h
    · simp at h
      obtain ⟨h1, h2⟩ := h
      subst h2
      simp
    · split at h
      · rcases hfetch : ownerCsrfFetch srv
            { rs with originalSends := rs.originalSends + 1,
                      origCsrfRecoveries := rs.origCsrfRecoveries + 1 }
          with ⟨res, rs₂⟩
        have hpre := ownerCsrfFetch_preserves srv
          { rs with originalSends := rs.originalSends + 1,
                    origCsrfRecoveries := rs.origCsrfRecoveries + 1 }
        rw [hfetch] at hpre
        rcases res with fstat | tok <;> simp only [hfetch] at h
        · simp at h
          obtain ⟨h1, h2⟩ := h
          subst h2
          simp_all
        · split at h
          · have hb := ih _ _ _ _ (by simp [hflag]) h
            simp_all
          · simp at h
            obtain ⟨h1, h2⟩ := h
            subst h2
            simp_all
      · split at h
        · simp_all
        · simp at h
          obtain ⟨h1, h2⟩ := h
          subst h2
          simp

/-- The owner interceptor performs at most one token-refresh recovery per
original request. -/
theorem ownerProcess_refresh_bound (srv : OwnerServer) : ∀ (fuel : Nat) (fl : OwnerFlags)
    (rs : OwnerRun) (out : OwnerOutcome) (rs' : OwnerRun),
    ownerProcess srv fuel fl rs = some (out, rs') →
    rs'.origRefreshRecoveries ≤ rs.origRefreshRecoveries + 1 := by
  intro fuel
  induction fuel with
  | zero =>
    intro fl rs out rs' h
    simp [ownerProcess] at h
  | succ fuel ih =>
    intro fl rs out rs' h
    rw [ownerProcess] at h
    rcases hresp : srv.original rs.originalSends with _ | status <;>
      simp only [hresp] at h
    · simp at h
      obtain ⟨h1, h2⟩ := h
      subst h2
      simp
    · split at h
      · rcases hfetch : ownerCsrfFetch srv
            { rs with originalSends := rs.originalSends + 1,
                      origCsrfRecoveries := rs.origCsrfRecoveries + 1 }
          with ⟨res, rs₂⟩
        have hpre := ownerCsrfFetch_preserves srv
          { rs with originalSends := rs.originalSends + 1,
                    origCsrfRecoveries := rs.origCsrfRecoveries + 1 }
        rw [hfetch] at hpre
        rcases res with fstat | tok <;> simp only [hfetch] at h
        · simp at h
          obtain ⟨h1, h2⟩ := h
          subst h2
          simp_all
        · split at h
          · have hb := ih _ _ _ _ h
            simp_all
          · simp at h
            obtain ⟨h1, h2⟩ := h
            subst h2
            simp_all
      · split at h
        · split at h
          · rcases hnest : refreshViaApi srv fuel { }
                { rs with originalSends := rs.originalSends + 1,
                          origRefreshRecoveries := rs.origRefreshRecoveries + 1 }
              with _ | ⟨r₂, rs₂⟩
            · simp [hnest] at h
            · have hp₁ := refreshViaApi_preserves srv fuel _ _ _ _ hnest
              rcases r₂ with e | a <;> simp only [hnest] at h
              · simp at h
                obtain ⟨h1, h2⟩ := h
                subst h2
                simp_all
              · have hfr := ownerProcess_retry_frozen srv fuel _ _ _ _ (by simp) h
                simp_all
          · simp at h
            obtain ⟨h1, h2⟩ := h
            subst h2
            simp
        · simp at h
          obtain ⟨h1, h2⟩ := h
          subst h2
          simp

/-- With `_retry` already set, the customer interceptor performs no
recovery of either class: the response is passed through or rejected
as is. -/
theorem custProcess_retry_stop (srv : CustServer) (fuel : Nat) (rs : CustRun) :
    custProcess srv (fuel + 1) { retry := true } rs =
      some ((match srv.original rs.originalSends with
             | .ok => CustOutcome.success
             | .err s => CustOutcome.rejected s),
            { rs with originalSends := rs.originalSends + 1 }) := by
  rcases h : srv.original rs.originalSends with _ | s <;>
    simp [custProcess, h]

/-- With `_retry` set, a customer-client request adds no recovery of
either class. -/
theorem custProcess_retryTrue_frozen (srv : CustServer) : ∀ (fuel : Nat) (fl : CustFlags)
    (rs : CustRun) (out : CustOutcome) (rs' : CustRun),
    fl.retry = true →
    custProcess srv fuel fl rs = some (out, rs') →
    rs'.csrfRecoveries = rs.csrfRecoveries ∧ rs'.refreshRecoveries = rs.refreshRecoveries := by
  intro fuel fl rs out rs' hflag h
  cases fuel with
  | zero => simp [custProcess] at h
  | succ fuel =>
    have hfl : fl = { retry := true } := by cases fl; simp_all
    subst hfl
    rw [custProcess_retry_stop] at h
    simp at h
    obtain ⟨h1, h2⟩ := h
    subst h2
    simp

/-- The customer interceptor performs at most one recovery in total per
original request (the 403 and 401 branches share the `_retry` flag). -/
theorem custProcess_recovery_bound (srv : CustServer) : ∀ (fuel : Nat) (fl : CustFlags)
    (rs : CustRun) (out : CustOutcome) (rs' : CustRun),
    custProcess srv fuel fl rs = some (out, rs') →
    rs'.csrfRecoveries + rs'.refreshRecoveries
      ≤ rs.csrfRecoveries + rs.refreshRecoveries + 1 := by
  intro fuel fl rs out rs' h
  rcases hfl : fl.retry with _ | _
  case true =>
    have := custProcess_retryTrue_frozen srv fuel fl rs out rs' hfl h
    omega
  case false =>
  cases fuel with
  | zero => simp [custProcess] at h
  | succ fuel =>
    rw [custProcess] at h
    rcases hresp : srv.original rs.originalSends with _ | status <;>
      simp only [hresp] at h
    · simp at h
      obtain ⟨h1, h2⟩ := h
      subst h2
      simp
    · split at h
      · rcases hens : custEnsure srv
            { rs with originalSends := rs.originalSends + 1,
                      csrfRecoveries := rs.csrfRecoveries + 1 }
          with ⟨tok, rs₂⟩
        have hpre := custEnsure_preserves srv
          { rs with originalSends := rs.originalSends + 1,
                    csrfRecoveries := rs.csrfRecoveries + 1 }
        rw [hens] at hpre
        simp only [hens] at h
        have hfr := custProcess_retryTrue_frozen srv fuel _ _ _ _ rfl h
        simp_all
        omega
      · split at h
        · split at h
          · rcases hr : srv.refresh rs.refreshCalls with e | a <;> simp only [hr] at h
            · simp at h
              obtain ⟨h1, h2⟩ := h
              subst h2
              simp
              omega
            · have hfr := custProcess_retryTrue_frozen srv fuel _ _ _ _ rfl h
              simp_all
              omega
          · simp at h
            obtain ⟨h1, h2⟩ := h
            subst h2
            simp
        · simp at h
          obtain ⟨h1, h2⟩ := h
          subst h2
          simp

/-- Server script for the C3 counterexample: the original request always
fails 401; the refresh endpoint fails with HTTP 500. -/
def c3OwnerServer : OwnerServer :=
  { original := fun _ => .err (some 401)
    csrf := fun _ => .success "CT"
    refresh := fun _ => .err (some 500)
    refreshAccess := fun _ => "ACC" }

/-- C3 counterexample: in the owner client, a 401 with a refresh token
present triggers one refresh call; when the refresh fails, the catch only
logs and the original error is rejected — the access and refresh tokens
are still in storage, contradicting the claimed fail-closed clearing. -/
theorem refreshFailure_c3_counterexample :
    ownerProcess c3OwnerServer 5 {}
        { store := { token := some "T", refreshToken := some "R" } }
      = some (.rejected (some 401),
          { store := { token := some "T", refreshToken := some "R" },
            refreshCalls := 1, originalSends := 1, origRefreshRecoveries := 1 })
  ∧ (some "T" : Option String) ≠ none ∧ (some "R" : Option String) ≠ none := by
  refine ⟨rfl, by decide, by decide⟩

/-- C3 amended: the claimed behavior holds in the customer client — a 401
with a refresh token present calls the refresh endpoint exactly once; on
success the new access token is persisted and the original request is
resent exactly once; on refresh failure `access_token`, `refresh_token`
and `user` are all removed and the caller is redirected to `/login`.  The
owner client diverges: refresh failure clears nothing (see the
counterexample). -/
theorem refreshFailure_c3_amended :
    ∀ (srv : CustServer) (rs : CustRun),
      truthy rs.store.refresh_token = true →
      srv.original rs.originalSends = .err (some 401) →
      (∀ a, srv.refresh rs.refreshCalls = .ok a →
         ∃ out rs', custProcess srv 2 {} rs = some (out, rs')
           ∧ rs'.refreshCalls = rs.refreshCalls + 1
           ∧ rs'.store.access_token = some a
           ∧ rs'.originalSends = rs.originalSends + 2)
      ∧ (∀ e, srv.refresh rs.refreshCalls = .error e →
         custProcess srv 2 {} rs = some (.rejectedRefreshErr e,
           { rs with originalSends := rs.originalSends + 1,
                     refreshCalls := rs.refreshCalls + 1,
                     refreshRecoveries := rs.refreshRecoveries + 1,
                     store := { access_token := none, refresh_token := none,
                                userJson := none },
                     redirectedToLogin := true })) := by
  intro srv rs hrt h401
  constructor
  · intro a hra
    rw [show (2 : Nat) = 1 + 1 from rfl]
    simp only [custProcess, h401, hrt, hra]
    simp [custProcess_retry_stop]
    rcases h2 : srv.original (rs.originalSends + 1) with _ | s <;>
      exact ⟨_, _, rfl, rfl, rfl, rfl⟩
  · intro e hre
    simp only [custProcess, h401, hrt, hre]
    simp

/-- Server script for the C3 witness: one 401, then an invalid refresh
token. -/
def c3CustServer : CustServer :=
  { original := fun k => if k = 0 then .err (some 401) else .ok
    csrf := fun _ => .ok "CT"
    refresh := fun _ => .error (some 401) }

/-- Witness for C3 amended: a stored (expired access, invalid refresh)
pair leads to one refresh call, cleared storage and a login redirect. -/
theorem refreshFailure_c3_amended_witness :
    custProcess c3CustServer 2 {}
        { store := { access_token := some "A", refresh_token := some "R",
                     userJson := some "U" } }
      = some (.rejectedRefreshErr (some 401),
          { store := { access_token := none, refresh_token := none, userJson := none },
            refreshCalls := 1, originalSends := 1, refreshRecoveries := 1,
            redirectedToLogin := true }) :=
  (refreshFailure_c3_amended c3CustServer
      { store := { access_token := some "A", refresh_token := some "R",
                   userJson := some "U" } }
      rfl rfl).2 (some 401) rfl

/-- Server script for the C5 counterexample: first send 403, second send
401, third send succeeds; CSRF fetch and refresh both succeed. -/
def c5OwnerServer : OwnerServer :=
  { original := fun k =>
      if k = 0 then .err (some 403) else if k = 1 then .err (some 401) else .ok
    csrf := fun _ => .success "CT"
    refresh := fun _ => .ok
    refreshAccess := fun _ => "ACC" }

/-- C5 counterexample: in the owner client one original request undergoes
both a CSRF recovery and a token-refresh recovery (403 on the first send,
401 on the CSRF-recovered resend) — the two recovery paths are guarded by
separate flags and are not mutually exclusive. -/
theorem retry_c5_counterexample :
    (ownerProcess c5OwnerServer 5 {}
        { store := { token := some "T", refreshToken := some "R" } }).map
      (fun p => (p.1, p.2.origCsrfRecoveries, p.2.origRefreshRecoveries))
      = some (.success, 1, 1) := by
  rfl

/-- C5 amended: each failure-class recovery is attempted at most once per
original request in both clients (`_csrfRetried`/`_retry` in the owner
client, the shared `_retry` flag in the customer client), and a second
failure of the same class is surfaced as a terminal rejection with no
further retry; in the customer client the shared flag additionally makes
the two recovery paths mutually exclusive (at most one recovery in
total), but in the owner client the flags are separate and one request
can receive both recoveries (see the counterexample). -/
theorem retry_c5_amended :
    (∀ (srv : OwnerServer) (fuel : Nat) (fl : OwnerFlags) (rs : OwnerRun)
       (out : OwnerOutcome) (rs' : OwnerRun),
       ownerProcess srv fuel fl rs = some (out, rs') →
       rs'.origCsrfRecoveries ≤ rs.origCsrfRecoveries + 1
       ∧ rs'.origRefreshRecoveries ≤ rs.origRefreshRecoveries + 1)
  ∧ (∀ (srv : OwnerServer) (fuel : Nat) (fl : OwnerFlags) (rs : OwnerRun),
       fl.csrfRetried = true → srv.original rs.originalSends = .err (some 403) →
       ownerProcess srv (fuel + 1) fl rs
         = some (.rejected (some 403), { rs with originalSends := rs.originalSends + 1 }))
  ∧ (∀ (srv : OwnerServer) (fuel : Nat) (fl : OwnerFlags) (rs : OwnerRun),
       fl.retry = true → srv.original rs.originalSends = .err (some 401) →
       ownerProcess srv (fuel + 1) fl rs
         = some (.rejected (some 401), { rs with originalSends := rs.originalSends + 1 }))
  ∧ (∀ (srv : CustServer) (fuel : Nat) (fl : CustFlags) (rs : CustRun)
       (out : CustOutcome) (rs' : CustRun),
       custProcess srv fuel fl rs = some (out, rs') →
       rs'.csrfRecoveries + rs'.refreshRecoveries
         ≤ rs.csrfRecoveries + rs.refreshRecoveries + 1) := by
  refine ⟨?_, ?_, ?_, ?_⟩
  · intro srv fuel fl rs out rs' h
    exact ⟨ownerProcess_csrf_bound srv fuel fl rs out rs' h,
           ownerProcess_refresh_bound srv fuel fl rs out rs' h⟩
  · intro srv fuel fl rs hflag hresp
    rw [ownerProcess]
    simp [hresp, hflag]
  · intro srv fuel fl rs hflag hresp
    rw [ownerProcess]
    simp [hresp, hflag]
  · intro srv fuel fl rs out rs' h
    exact custProcess_recovery_bound srv fuel fl rs out rs' h

/-- Server script for the C5 witness: the original request always fails
403. -/
def c5TermServer : OwnerServer :=
  { original := fun _ => .err (some 403)
    csrf := fun _ => .success "CT"
    refresh := fun _ => .ok
    refreshAccess := fun _ => "ACC" }

/-- Witness for C5 amended: the at-most-once bounds at the concrete
both-recoveries run, and a second 403 with `_csrfRetried` already set
being terminally rejected without any further network activity. -/
theorem retry_c5_amended_witness :
    ((1 : Nat) ≤ 0 + 1 ∧ (1 : Nat) ≤ 0 + 1)
  ∧ ownerProcess c5TermServer 1 { csrfRetried := true } { store := {} }
      = some (.rejected (some 403), { store := {}, originalSends := 1 }) :=
  ⟨retry_c5_amended.1 c5OwnerServer 5 {}
      { store := { token := some "T", refreshToken := some "R" } } .success
      { store := { token := some "ACC", refreshToken := some "R", csrfToken := some "CT" },
        csrfMem := some "CT", csrfFetches := 1, refreshCalls := 1, originalSends := 3,
        origCsrfRecoveries := 1, origRefreshRecoveries := 1 } rfl,
   retry_c5_amended.2.1 c5TermServer 0 { csrfRetried := true } { store := {} } rfl rfl⟩
